import Mathlib

/-!
Verification of the logassert record-capture and matching engine.

The definitions below are a shallow embedding of `logassert/logassert.py`:
Python values appearing as log messages and structured-field values become
the inductive type `PyVal`, captured log records become `Record`, the
matcher class hierarchy becomes the inductive `Matcher` (mutually with
`Item`, the type of arguments accepted where either a raw value or a
matcher may be passed), and the methods of `PyTestComparer` and
`_StdlibStoringHandler` become Lean functions over these types.

The whole development is parametric in `rs : String → String → Bool`, the
result of Python's `re.compile(pattern).search(message)` truthiness test:
the regular-expression engine is an external library, not code of this
repository, so it is kept abstract.  Concrete witnesses instantiate it
with `regexLit`, which agrees with `re.search` on patterns that contain
no regex metacharacters (all patterns used in witnesses are such).
-/

namespace Logassert

/-- The universe of Python values the embedding models: strings, integers,
`None`, and opaque objects (identified by a tag).  `bytes` values are not
modelled; the `isinstance(message, (str, bytes))` guard of
`Matcher.search` therefore collapses to the string test. -/
inductive PyVal where
  | str (s : String)
  | int (n : Int)
  | pnone
  | obj (id : Nat)
deriving DecidableEq, Repr

/-- Whether a value is a Python `str` (the modelled half of the
`isinstance(message, (str, bytes))` test in `Matcher.search`). -/
def PyVal.isStr : PyVal → Bool
  | .str _ => true
  | _ => false

/-- A captured log record, covering both `SimpleRecord` (where
`extra_fields` is always empty) and `StructRecord`. -/
structure Record where
  levelname : String
  levelno : Nat
  message : PyVal
  extra_fields : List (String × PyVal)
deriving DecidableEq, Repr

mutual

/-- The matcher hierarchy of `logassert.py`: `Regex`, `Exact`, `Multiple`,
`Sequence`, `Struct`, `CompleteStruct` and the `_Nothing` singleton.
`Struct` and `CompleteStruct` carry their message item and declared
fields; `Sequence` carries its sub-items. -/
inductive Matcher where
  | regex (token : String)
  | exact (token : PyVal)
  | multiple (tokens : List String)
  | sequence (tokens : List Item)
  | struct (token : Item) (fields : List (String × Item))
  | completeStruct (token : Item) (fields : List (String × Item))
  | nothing

/-- An argument in a position where the source accepts either a raw Python
value or an already-built matcher (`_get_matcher` coerces it). -/
inductive Item where
  | val (v : PyVal)
  | matcher (m : Matcher)

end

/-- Whether a matcher is a `Sequence` (the `isinstance(item, Sequence)`
test in `PyTestComparer.__contains__`). -/
def Matcher.isSeq : Matcher → Bool
  | .sequence _ => true
  | _ => false

/-- `_get_matcher`: a raw string defaults to `Regex`, a matcher is kept as
is, any other value is wrapped in `Exact`. -/
def getMatcher : Item → Matcher
  | .val (.str s) => .regex s
  | .val v => .exact v
  | .matcher m => m

/-- Whether the first character list is a prefix of the second. -/
def pyStartsWith : List Char → List Char → Bool
  | [], _ => true
  | _ :: _, [] => false
  | c :: cs, d :: ds => c == d && pyStartsWith cs ds

/-- Whether the first character list occurs contiguously in the second. -/
def pyContainsChars (n : List Char) : List Char → Bool
  | [] => n.isEmpty
  | d :: ds => pyStartsWith n (d :: ds) || pyContainsChars n ds

/-- Python's substring test `needle in haystack` for `str` values. -/
def pySubstr (needle hay : String) : Bool :=
  pyContainsChars needle.data hay.data

/-- A concrete regular-expression oracle used by witnesses: for a pattern
with no regex metacharacters, `re.compile(p).search(m)` is truthy exactly
when `p` occurs as a substring of `m`. -/
def regexLit (pattern msg : String) : Bool := pySubstr pattern msg

/-- `Matcher.search(message=...)`: the non-`Exact` matchers bail out with
`False` on a non-string message, otherwise `_search` runs.  The
`sequence`, `struct`, `completeStruct` and `nothing` arms return `false`
here because in the source that call raises (`Sequence` has no `_search`,
`Struct.search` and `_Nothing.search` reject the `message` keyword); no
claim exercises those arms. -/
def Matcher.searchMessage (rs : String → String → Bool) : Matcher → PyVal → Bool
  | .exact tok, msg => tok == msg
  | .regex pat, .str s => rs pat s
  | .multiple toks, .str s => toks.all (fun t => pySubstr t s)
  | .regex _, _ => false
  | .multiple _, _ => false
  | .sequence _, _ => false
  | .struct _ _, _ => false
  | .completeStruct _ _, _ => false
  | .nothing, _ => false

/-- The keys of a record's `extra_fields` dict (`set(record.extra_fields)`
iterates the keys). -/
def recordKeys (r : Record) : List String := r.extra_fields.map Prod.fst

/-- The keys of a `Struct`'s declared fields. -/
def declaredKeys (fields : List (String × Item)) : List String :=
  fields.map Prod.fst

/-- `Struct._extra_fields_ok`:
`set(record.extra_fields).issuperset(self.fields)`. -/
def fieldsSubset (fields : List (String × Item)) (r : Record) : Bool :=
  (declaredKeys fields).all (fun k => (recordKeys r).contains k)

/-- `CompleteStruct._extra_fields_ok`:
`set(record.extra_fields) == set(self.fields)`. -/
def fieldsEqSet (fields : List (String × Item)) (r : Record) : Bool :=
  fieldsSubset fields r && (recordKeys r).all (fun k => (declaredKeys fields).contains k)

/-- The field-coverage check used by `Struct.search`: the subclass
`CompleteStruct` (flag `complete = true`) overrides `_extra_fields_ok`
with the exact-set version. -/
def structExtraOk (complete : Bool) (fields : List (String × Item)) (r : Record) : Bool :=
  if complete then fieldsEqSet fields r else fieldsSubset fields r

/-- The per-field loop of `Struct.search`: each declared field's value is
looked up in the record (`continue` when absent) and checked with the
coerced matcher. -/
def fieldsValuesOk (rs : String → String → Bool)
    (fields : List (String × Item)) (r : Record) : Bool :=
  fields.all (fun kv =>
    match r.extra_fields.lookup kv.1 with
    | Option.none => true
    | Option.some rv => (getMatcher kv.2).searchMessage rs rv)

/-- `Struct.search` (and, with `complete = true`, `CompleteStruct.search`,
which inherits it and only overrides `_extra_fields_ok`): coverage check,
then message match, then the per-field loop. -/
def structSearch (rs : String → String → Bool) (complete : Bool)
    (token : Item) (fields : List (String × Item)) (r : Record) : Bool :=
  if !structExtraOk complete fields r then false
  else if !(getMatcher token).searchMessage rs r.message then false
  else fieldsValuesOk rs fields r

/-- `matcher.search(record=record)` together with the mutable
`default_response` state of the `NOTHING` singleton: the first component
is the returned boolean, the second the singleton's `default_response`
after the call (`_Nothing.search` sets it to `False`; every other matcher
leaves it alone). -/
def Matcher.searchRecord (rs : String → String → Bool) (m : Matcher) (nd : Bool)
    (r : Record) : Bool × Bool :=
  match m with
  | .nothing => (false, false)
  | .struct tok flds => (structSearch rs false tok flds r, nd)
  | .completeStruct tok flds => (structSearch rs true tok flds r, nd)
  | m => (m.searchMessage rs r.message, nd)

/-- The pure result of `matcher.search(record=record)` (it never depends
on the `NOTHING` state, see `Matcher.searchRecord_fst`). -/
def Matcher.searchRes (rs : String → String → Bool) (m : Matcher) (r : Record) : Bool :=
  (m.searchRecord rs true r).1

/-- `default_response`: the class attribute `False` for every matcher,
except the `NOTHING` singleton whose instance attribute is the threaded
mutable state. -/
def Matcher.defaultResponse (m : Matcher) (nd : Bool) : Bool :=
  match m with
  | .nothing => nd
  | _ => false

/-- The level filter of `PyTestComparer.__contains__`:
`rec.levelno == self.level or self.level is None`. -/
def levelMatches (level : Option Nat) (r : Record) : Bool :=
  some r.levelno == level || level.isNone

/-- The level-filtered view of the record list. -/
def filterLevel (level : Option Nat) (records : List Record) : List Record :=
  records.filter (levelMatches level)

/-- The window test inside `_verify_sequence`: `zip(section, matchers)`
with the for/else loop succeeds exactly when every paired record/matcher
search succeeds.  (`_Nothing.search` would mutate `default_response`
here, but that state is never read back on the sequence path.) -/
def windowOk (rs : String → String → Bool)
    (sect : List Record) (matchers : List Matcher) : Bool :=
  (sect.zip matchers).all (fun p => p.2.searchRes rs p.1)

/-- `PyTestComparer._verify_sequence`: coerce every sub-item, then slide
the window start over `range(len(records) - len_matchers + 1)` (empty
when the records are fewer than the matchers, as Python's `range` of a
non-positive bound is empty, which natural subtraction reproduces). -/
def verifySequence (rs : String → String → Bool)
    (token : List Item) (records : List Record) : Bool :=
  let matchers := token.map getMatcher
  let lenMatchers := matchers.length
  (List.range (records.length + 1 - lenMatchers)).any (fun start =>
    windowOk rs ((records.drop start).take lenMatchers) matchers)

/-- The `any(matcher.search(record=record) for record in records)` loop of
`PyTestComparer.__contains__`, threading the `NOTHING` state: returns the
short-circuited disjunction and the state after the loop. -/
def anySearch (rs : String → String → Bool) (m : Matcher) :
    Bool → List Record → Bool × Bool
  | nd, [] => (false, nd)
  | nd, r :: rest =>
    let p := m.searchRecord rs nd r
    if p.1 then (true, p.2) else anySearch rs m p.2 rest

/-- `PyTestComparer.__contains__` with an explicit `NOTHING` state `nd` on
entry: filter by level, dispatch sequences to `_verify_sequence`,
otherwise coerce and search each record, falling back on
`default_response`. -/
def pytestContains (rs : String → String → Bool) (level : Option Nat)
    (allRecords : List Record) (item : Item) (nd : Bool) : Bool :=
  let records := filterLevel level allRecords
  match item with
  | .matcher (.sequence toks) => verifySequence rs toks records
  | _ =>
    let m := getMatcher item
    let p := anySearch rs m nd records
    if p.1 then true else m.defaultResponse p.2

/-- A containment check on a freshly built comparer:
`PyTestComparer.__init__` calls `NOTHING.reset()`, so the singleton's
`default_response` is `true` on entry. -/
def comparerContains (rs : String → String → Bool) (level : Option Nat)
    (allRecords : List Record) (item : Item) : Bool :=
  pytestContains rs level allRecords item true

/-- `logging.getLevelName` for the numeric levels the library uses. -/
def getLevelName (l : Nat) : String :=
  if l = 10 then "DEBUG"
  else if l = 20 then "INFO"
  else if l = 30 then "WARNING"
  else if l = 40 then "ERROR"
  else if l = 50 then "CRITICAL"
  else if l = 0 then "NOTSET"
  else "Level " ++ toString l

/-- Python's `"{:9s}".format`: left-justify, padding with spaces up to the
width. -/
def padRight (w : Nat) (s : String) : String :=
  s ++ String.mk (List.replicate (w - s.length) ' ')

/-- The repr of a record's `extra_fields` dict, given a repr oracle `pr`
for the values (keys are strings, repr'd by the same oracle). -/
def dictRepr (pr : PyVal → String) (kvs : List (String × PyVal)) : String :=
  "\x7b" ++ String.intercalate ", "
    (kvs.map (fun kv => pr (.str kv.1) ++ ": " ++ pr kv.2)) ++ "\x7d"

/-- `repr_content`: `SimpleRecord` yields `repr(message)` (its
`extra_fields` is always empty); `StructRecord` appends the fields dict
when non-empty. -/
def reprContent (pr : PyVal → String) (r : Record) : String :=
  if r.extra_fields.isEmpty then pr r.message
  else pr r.message ++ " " ++ dictRepr pr r.extra_fields

/-- A concrete stand-in for Python's `repr`, valid for the values used in
witnesses (strings without quotes, escapes or non-printables). -/
def pyReprDemo : PyVal → String
  | .str s => "'" ++ s ++ "'"
  | .int n => toString n
  | .pnone => "None"
  | .obj i => "<object " ++ toString i ++ ">"

/-- The per-record line of `PyTestComparer.messages`:
`f"     {record.levelname.upper():9s} {record.repr_content}"`. -/
def comparerLine (pr : PyVal → String) (r : Record) : String :=
  "     " ++ padRight 9 r.levelname.toUpper ++ " " ++ reprContent pr r

/-- The title line of `PyTestComparer.messages`. -/
def comparerTitle (desc : String) (level : Option Nat)
    (records : List Record) : String :=
  let levelName := match level with
    | Option.none => "any level"
    | Option.some l => getLevelName l
  if !records.isEmpty then
    "for " ++ desc ++ " in " ++ levelName ++ " failed; logged lines:"
  else
    "for " ++ desc ++ " in " ++ levelName ++ " failed; no logged lines at all!"

/-- `PyTestComparer.messages`: the title followed by one line per record
of `self.records` — the comparer's full record list, which
`__contains__` never filters in place. -/
def comparerMessages (pr : PyVal → String) (desc : String) (level : Option Nat)
    (records : List Record) : List String :=
  comparerTitle desc level records ::
    records.map (fun r => comparerLine pr r)

/-- One emission event: which adapter captured it (0 = the stdlib storing
handler, 1 = the structlog capturer; each emission reaches exactly one of
them) and the resulting record. -/
abbrev Emission : Type := Nat × Record

/-- The buffer of adapter `i` after the trace has been emitted: `emit` /
`_capture` append each captured record in emission order. -/
def handlerBuffer (i : Nat) (trace : List Emission) : List Record :=
  (trace.filter (fun e => e.1 == i)).map (fun e => e.2)

/-- `PyTestComparer._get_records`: extend an accumulator with each
handler's `records` list, in handler order. -/
def getRecords (handlerIds : List Nat) (trace : List Emission) : List Record :=
  handlerIds.foldl (fun acc i => acc ++ handlerBuffer i trace) []

/-- A handler installed on a stdlib logger: either a
`_StdlibStoringHandler` (remembering `original_logger_level`) or any
other handler. -/
inductive PyHandler where
  | storing (id : Nat) (originalLoggerLevel : Nat)
  | other (id : Nat)
deriving DecidableEq, Repr

/-- Whether a handler is a `_StdlibStoringHandler`
(`isinstance(h, _StdlibStoringHandler)`). -/
def PyHandler.isStoring : PyHandler → Bool
  | .storing _ _ => true
  | .other _ => false

/-- The mutable state of a stdlib logger that
`_StdlibStoringHandler.__init__` and `teardown` touch. -/
structure Logger where
  level : Nat
  handlers : List PyHandler
deriving DecidableEq, Repr

/-- `logging.DEBUG`. -/
def DEBUG_LEVEL : Nat := 10

/-- `_StdlibStoringHandler.__init__` on logger `lg`: save the original
level, set the logger to `DEBUG`, drop every existing storing handler,
append the new one.  Returns the updated logger and the new handler. -/
def installStoringHandler (id : Nat) (lg : Logger) : Logger × PyHandler :=
  let originalLevel := lg.level
  let lg1 : Logger := { lg with level := DEBUG_LEVEL }
  let cleaned := lg1.handlers.filter (fun h => !h.isStoring)
  let h := PyHandler.storing id originalLevel
  ({ lg1 with handlers := cleaned ++ [h] }, h)

/-- `_StdlibStoringHandler.teardown`: drop every storing handler from the
logger and restore the saved level.  (Only ever called on handlers built
by `installStoringHandler`; the `other` arm is unreachable.) -/
def teardownStoringHandler (h : PyHandler) (lg : Logger) : Logger :=
  match h with
  | .storing _ orig =>
    { lg with
      handlers := lg.handlers.filter (fun x => !x.isStoring),
      level := orig }
  | .other _ => lg

/-- The number of storing handlers a logger holds. -/
def countStoring (lg : Logger) : Nat :=
  (lg.handlers.filter PyHandler.isStoring).length

/-! ## Helper lemmas -/

theorem Matcher.searchRecord_fst (rs : String → String → Bool) (m : Matcher)
    (nd : Bool) (r : Record) :
    (m.searchRecord rs nd r).1 = m.searchRes rs r := by
  cases m <;> rfl

theorem Matcher.defaultResponse_of_ne_nothing (m : Matcher) (nd : Bool)
    (h : m ≠ Matcher.nothing) : m.defaultResponse nd = false := by
  cases m <;> first | rfl | exact absurd rfl h

theorem anySearch_fst (rs : String → String → Bool) (m : Matcher) (nd : Bool)
    (recs : List Record) :
    (anySearch rs m nd recs).1 = recs.any (fun r => m.searchRes rs r) := by
  induction recs generalizing nd with
  | nil => rfl
  | cons r rest ih =>
    simp only [anySearch, List.any_cons, Matcher.searchRecord_fst]
    by_cases h : m.searchRes rs r = true
    · simp [h]
    · simp only [Bool.not_eq_true] at h
      simp [h, ih]

theorem anySearch_snd_nothing (rs : String → String → Bool) (nd : Bool)
    (recs : List Record) :
    (anySearch rs Matcher.nothing nd recs).2 = (recs.isEmpty && nd) := by
  induction recs generalizing nd with
  | nil => simp [anySearch]
  | cons r rest ih =>
    simp [anySearch, Matcher.searchRecord, ih]

theorem contains_matcher_eval (rs : String → String → Bool) (level : Option Nat)
    (R : List Record) (m : Matcher) (hm : m.isSeq = false) :
    comparerContains rs level R (Item.matcher m) =
      (if (anySearch rs m true (filterLevel level R)).1 then true
       else m.defaultResponse (anySearch rs m true (filterLevel level R)).2) := by
  cases m <;> first
    | rfl
    | simp [Matcher.isSeq] at hm

/-! ## Claim theorems -/

/-- C1: for every record list, level filter and non-`Sequence` matcher `M`,
the containment check is true iff some level-filtered record satisfies
`M`'s search; with no satisfying record it falls back on `M`'s default
response, which is false for every matcher except the `NOTHING` singleton
(reset at comparer construction), for which the check is true iff the
level-filtered record subset is empty. -/
theorem c1_contains_simple_matcher (rs : String → String → Bool)
    (level : Option Nat) (R : List Record) (m : Matcher)
    (hm : m.isSeq = false) :
    (m ≠ Matcher.nothing →
      (comparerContains rs level R (Item.matcher m) = true ↔
        ∃ r ∈ filterLevel level R, m.searchRes rs r = true))
    ∧ (m = Matcher.nothing →
      (comparerContains rs level R (Item.matcher m) = true ↔
        filterLevel level R = [])) := by
  rw [contains_matcher_eval rs level R m hm]
  constructor
  · intro hne
    rw [Matcher.defaultResponse_of_ne_nothing m _ hne]
    simp only [anySearch_fst]
    cases hc : (filterLevel level R).any (fun r => m.searchRes rs r) with
    | true =>
      simp only [List.any_eq_true] at hc
      simpa using hc
    | false =>
      simp only [List.any_eq_false] at hc
      simp only [if_false, Bool.false_eq_true, false_iff, not_exists]
      intro r hr
      exact hc r hr.1 hr.2
  · intro he
    subst he
    have hall : (filterLevel level R).any
        (fun r => Matcher.nothing.searchRes rs r) = false := by
      simp [Matcher.searchRes, Matcher.searchRecord]
    rw [anySearch_fst, hall, anySearch_snd_nothing]
    simp [Matcher.defaultResponse, List.isEmpty_iff]

/-- Witness for C1: a concrete regex check over one record, with the
hypotheses discharged. -/
theorem c1_contains_simple_matcher_witness :
    (Matcher.regex "aaa").isSeq = false ∧
    (comparerContains regexLit Option.none
        [⟨"DEBUG", 10, PyVal.str "aaa", []⟩]
        (Item.matcher (Matcher.regex "aaa")) = true ↔
      ∃ r ∈ filterLevel Option.none [⟨"DEBUG", 10, PyVal.str "aaa", []⟩],
        (Matcher.regex "aaa").searchRes regexLit r = true) :=
  ⟨rfl,
    (c1_contains_simple_matcher regexLit Option.none
        [⟨"DEBUG", 10, PyVal.str "aaa", []⟩] (Matcher.regex "aaa") rfl).1
      (fun h => Matcher.noConfusion h)⟩

/-- C8: each installation of the storing handler first removes any
previously installed storing handler, so after every setup — also after
any number of repeated setups — the logger holds exactly one storing
handler. -/
theorem c8_install_idempotent :
    (∀ (id : Nat) (lg : Logger),
      countStoring (installStoringHandler id lg).1 = 1)
    ∧ (∀ (id : Nat) (ids : List Nat) (lg : Logger),
      countStoring
        ((id :: ids).foldl (fun l i => (installStoringHandler i l).1) lg) = 1) := by
  have base : ∀ (id : Nat) (lg : Logger),
      countStoring (installStoringHandler id lg).1 = 1 := by
    intro id lg
    simp [installStoringHandler, countStoring, List.filter_append,
      List.filter_filter, PyHandler.isStoring]
  refine ⟨base, ?_⟩
  intro id ids lg
  induction ids generalizing id lg with
  | nil => exact base id lg
  | cons j rest ih =>
    simp only [List.foldl_cons]
    exact ih j (installStoringHandler id lg).1

/-- C9: tearing down an installed storing handler removes every storing
handler from the logger, keeps the other handlers untouched, and
restores the level the logger had before installation (installation
itself having raised it to `DEBUG`). -/
theorem c9_teardown_restores (id : Nat) (lg : Logger) :
    (installStoringHandler id lg).1.level = DEBUG_LEVEL ∧
    (teardownStoringHandler (installStoringHandler id lg).2
        (installStoringHandler id lg).1).level = lg.level ∧
    (teardownStoringHandler (installStoringHandler id lg).2
        (installStoringHandler id lg).1).handlers
      = lg.handlers.filter (fun h => !h.isStoring) ∧
    countStoring (teardownStoringHandler (installStoringHandler id lg).2
        (installStoringHandler id lg).1) = 0 := by
  refine ⟨rfl, rfl, ?_, ?_⟩
  · simp [installStoringHandler, teardownStoringHandler,
      List.filter_append, List.filter_filter, PyHandler.isStoring]
  · simp [installStoringHandler, teardownStoringHandler, countStoring,
      List.filter_append, List.filter_filter, PyHandler.isStoring]

/-- C10: on a message value that is not a string, `Regex` and `Multiple`
search returns `false` (the `isinstance` guard) instead of failing, while
`Exact` still performs the equality comparison. -/
theorem c10_total_on_nonstring (rs : String → String → Bool)
    (pat : String) (toks : List String) (tok msg : PyVal)
    (hmsg : msg.isStr = false) :
    (Matcher.regex pat).searchMessage rs msg = false ∧
    (Matcher.multiple toks).searchMessage rs msg = false ∧
    (Matcher.exact tok).searchMessage rs msg = (tok == msg) := by
  cases msg <;> simp_all [Matcher.searchMessage, PyVal.isStr]

/-- Witness for C10: the guard at the integer message `3`. -/
theorem c10_total_on_nonstring_witness :
    (PyVal.int 3).isStr = false ∧
    ((Matcher.regex "a").searchMessage regexLit (PyVal.int 3) = false ∧
     (Matcher.multiple ["a"]).searchMessage regexLit (PyVal.int 3) = false ∧
     (Matcher.exact (PyVal.int 3)).searchMessage regexLit (PyVal.int 3)
       = (PyVal.int 3 == PyVal.int 3)) :=
  ⟨rfl, c10_total_on_nonstring regexLit "a" ["a"] (PyVal.int 3) (PyVal.int 3) rfl⟩

theorem structSearch_eq (rs : String → String → Bool) (complete : Bool)
    (tok : Item) (fields : List (String × Item)) (r : Record) :
    structSearch rs complete tok fields r =
      (structExtraOk complete fields r &&
       ((getMatcher tok).searchMessage rs r.message &&
        fieldsValuesOk rs fields r)) := by
  unfold structSearch
  cases structExtraOk complete fields r <;>
    cases (getMatcher tok).searchMessage rs r.message <;> simp

theorem fieldsValuesOk_iff (rs : String → String → Bool)
    (fields : List (String × Item)) (r : Record) :
    fieldsValuesOk rs fields r = true ↔
      ∀ kv ∈ fields, ∀ rv, r.extra_fields.lookup kv.1 = some rv →
        (getMatcher kv.2).searchMessage rs rv = true := by
  simp only [fieldsValuesOk, List.all_eq_true]
  refine forall_congr' (fun kv => forall_congr' (fun hkv => ?_))
  cases hl : r.extra_fields.lookup kv.1 with
  | none => simp [hl]
  | some rv => simp [hl]

theorem fieldsSubset_iff (fields : List (String × Item)) (r : Record) :
    fieldsSubset fields r = true ↔
      ∀ k ∈ declaredKeys fields, k ∈ recordKeys r := by
  simp only [fieldsSubset, List.all_eq_true, List.elem_iff]

theorem fieldsEqSet_iff (fields : List (String × Item)) (r : Record) :
    fieldsEqSet fields r = true ↔
      ((∀ k ∈ declaredKeys fields, k ∈ recordKeys r) ∧
       (∀ k ∈ recordKeys r, k ∈ declaredKeys fields)) := by
  simp only [fieldsEqSet, Bool.and_eq_true, fieldsSubset_iff,
    List.all_eq_true, List.elem_iff]

/-- C3: a record whose field set strictly contains the declared fields,
with matching message and declared-field values, satisfies `Struct` but
not `CompleteStruct`; and `CompleteStruct` succeeds exactly when message
and fields match and the record field set equals the declared set. -/
theorem c3_struct_vs_complete_coverage :
    (∀ (rs : String → String → Bool) (tok : Item)
       (fields : List (String × Item)) (r : Record),
       fieldsSubset fields r = true →
       (recordKeys r).any (fun k => !(declaredKeys fields).contains k) = true →
       (getMatcher tok).searchMessage rs r.message = true →
       fieldsValuesOk rs fields r = true →
       structSearch rs false tok fields r = true ∧
       structSearch rs true tok fields r = false)
    ∧ (∀ (rs : String → String → Bool) (tok : Item)
        (fields : List (String × Item)) (r : Record),
        structSearch rs true tok fields r = true ↔
          (fieldsEqSet fields r = true ∧
           (getMatcher tok).searchMessage rs r.message = true ∧
           fieldsValuesOk rs fields r = true)) := by
  constructor
  · intro rs tok fields r hsub hstrict hmsg hfld
    have heq : fieldsEqSet fields r = false := by
      cases hfe : fieldsEqSet fields r with
      | false => rfl
      | true =>
        exfalso
        rw [List.any_eq_true] at hstrict
        obtain ⟨k, hk, hnk⟩ := hstrict
        rw [fieldsEqSet, Bool.and_eq_true, List.all_eq_true] at hfe
        have hc := hfe.2 k hk
        have hmem : k ∈ declaredKeys fields := List.elem_iff.mp hc
        simp [List.elem_iff, hmem] at hnk
    constructor
    · rw [structSearch_eq]
      simp [structExtraOk, hsub, hmsg, hfld]
    · rw [structSearch_eq]
      simp [structExtraOk, heq]
  · intro rs tok fields r
    rw [structSearch_eq]
    simp [structExtraOk, Bool.and_eq_true, and_assoc]

/-- Witness for C3: `Struct('msg', foo='x')` versus a record carrying
fields `foo: 'x', bar: 'y'` and message `'msg'`. -/
theorem c3_struct_vs_complete_coverage_witness :
    (fieldsSubset [("foo", Item.val (PyVal.str "x"))]
        ⟨"DEBUG", 10, PyVal.str "msg",
          [("foo", PyVal.str "x"), ("bar", PyVal.str "y")]⟩ = true ∧
     (recordKeys ⟨"DEBUG", 10, PyVal.str "msg",
          [("foo", PyVal.str "x"), ("bar", PyVal.str "y")]⟩).any
        (fun k => !(declaredKeys [("foo", Item.val (PyVal.str "x"))]).contains k) = true ∧
     (getMatcher (Item.val (PyVal.str "msg"))).searchMessage regexLit (PyVal.str "msg") = true ∧
     fieldsValuesOk regexLit [("foo", Item.val (PyVal.str "x"))]
        ⟨"DEBUG", 10, PyVal.str "msg",
          [("foo", PyVal.str "x"), ("bar", PyVal.str "y")]⟩ = true) ∧
    (structSearch regexLit false (Item.val (PyVal.str "msg"))
        [("foo", Item.val (PyVal.str "x"))]
        ⟨"DEBUG", 10, PyVal.str "msg",
          [("foo", PyVal.str "x"), ("bar", PyVal.str "y")]⟩ = true ∧
     structSearch regexLit true (Item.val (PyVal.str "msg"))
        [("foo", Item.val (PyVal.str "x"))]
        ⟨"DEBUG", 10, PyVal.str "msg",
          [("foo", PyVal.str "x"), ("bar", PyVal.str "y")]⟩ = false) :=
  ⟨⟨by decide, by decide, by decide, by decide⟩,
    c3_struct_vs_complete_coverage.1 regexLit (Item.val (PyVal.str "msg"))
      [("foo", Item.val (PyVal.str "x"))]
      ⟨"DEBUG", 10, PyVal.str "msg",
        [("foo", PyVal.str "x"), ("bar", PyVal.str "y")]⟩
      (by decide) (by decide) (by decide) (by decide)⟩

/-- Counterexample for C4: `Struct('msg', foo='x')` against a record with
message `'msg'` and no fields at all.  The claim's reading — declared
fields absent from the record count as success — predicts a match, but
`Struct.search` rejects the record: its `_extra_fields_ok` subset check
requires every declared field to be present.  The message matches and the
per-field loop is vacuously satisfied, so only the coverage check can be
responsible for the `false`. -/
theorem c4_struct_absent_field_counterexample :
    structSearch regexLit false (Item.val (PyVal.str "msg"))
        [("foo", Item.val (PyVal.str "x"))]
        ⟨"DEBUG", 10, PyVal.str "msg", []⟩ = false ∧
    (getMatcher (Item.val (PyVal.str "msg"))).searchMessage regexLit
        (PyVal.str "msg") = true ∧
    fieldsValuesOk regexLit [("foo", Item.val (PyVal.str "x"))]
        ⟨"DEBUG", 10, PyVal.str "msg", []⟩ = true :=
  ⟨by decide, by decide, by decide⟩

/-- C4 (amended): `Struct.search` succeeds iff the declared field keys are
a subset of the record's field keys, the message sub-matcher succeeds, and
every declared field's looked-up value matches its coerced matcher; a
declared field absent from the record fails the subset coverage check (so
the per-field loop's absent-key skip is unreachable for `Struct`). -/
theorem c4_struct_search_characterization (rs : String → String → Bool)
    (tok : Item) (fields : List (String × Item)) (r : Record) :
    structSearch rs false tok fields r = true ↔
      ((∀ k ∈ declaredKeys fields, k ∈ recordKeys r) ∧
       (getMatcher tok).searchMessage rs r.message = true ∧
       ∀ kv ∈ fields, ∀ rv, r.extra_fields.lookup kv.1 = some rv →
         (getMatcher kv.2).searchMessage rs rv = true) := by
  rw [structSearch_eq]
  simp only [structExtraOk, if_false, Bool.and_eq_true, fieldsSubset_iff,
    fieldsValuesOk_iff, and_assoc, Bool.false_eq_true]

/-- Counterexample for C5: `CompleteStruct('test')` — a sole message item,
zero declared fields — does not match a record whose message `'test'`
matches but which carries an extra field: the coverage check compares
against the empty set literally rather than being skipped. -/
theorem c5_completestruct_zero_fields_counterexample :
    structSearch regexLit true (Item.val (PyVal.str "test")) []
        ⟨"DEBUG", 10, PyVal.str "test", [("foo", PyVal.str "x")]⟩ = false ∧
    (getMatcher (Item.val (PyVal.str "test"))).searchMessage regexLit
        (PyVal.str "test") = true :=
  ⟨by decide, by decide⟩

/-- C5 (amended): with zero declared fields, `Struct` is equivalent to
applying the coerced message matcher to the record message (its subset
coverage check is vacuously true, extra record fields are ignored);
`CompleteStruct` with zero declared fields additionally requires the
record to carry no fields at all. -/
theorem c5_zero_fields_characterization (rs : String → String → Bool)
    (tok : Item) (r : Record) :
    (structSearch rs false tok [] r
      = (getMatcher tok).searchMessage rs r.message) ∧
    (structSearch rs true tok [] r
      = (r.extra_fields.isEmpty && (getMatcher tok).searchMessage rs r.message)) := by
  constructor
  · rw [structSearch_eq]
    simp [structExtraOk, fieldsSubset, declaredKeys, fieldsValuesOk]
  · rw [structSearch_eq]
    cases hre : r.extra_fields with
    | nil =>
      simp [structExtraOk, fieldsEqSet, fieldsSubset, declaredKeys,
        recordKeys, fieldsValuesOk, hre]
    | cons kv rest =>
      simp [structExtraOk, fieldsEqSet, fieldsSubset, declaredKeys,
        recordKeys, fieldsValuesOk, hre]

/-- Counterexample for C6: a comparer filtered to `DEBUG` (level 10) over
one `DEBUG` and one `WARNING` record.  The claim predicts one line per
level-filtered record (so 1 + 1 lines); `messages` iterates the full
record list and emits 1 + 2 lines, the third being the `WARNING`
record's line. -/
theorem c6_messages_counterexample :
    (comparerMessages pyReprDemo "Regex('bbb')" (some 10)
        [⟨"DEBUG", 10, PyVal.str "aaa", []⟩,
         ⟨"WARNING", 30, PyVal.str "bbb", []⟩]).length
      ≠ 1 + (filterLevel (some 10)
        [⟨"DEBUG", 10, PyVal.str "aaa", []⟩,
         ⟨"WARNING", 30, PyVal.str "bbb", []⟩]).length ∧
    (comparerMessages pyReprDemo "Regex('bbb')" (some 10)
        [⟨"DEBUG", 10, PyVal.str "aaa", []⟩,
         ⟨"WARNING", 30, PyVal.str "bbb", []⟩]).getD 2 ""
      = comparerLine pyReprDemo ⟨"WARNING", 30, PyVal.str "bbb", []⟩ := by
  constructor
  · decide
  · rfl

/-- C6 (amended): the diagnostic messages are a title line followed by
exactly one line per record of the comparer's full record list — records
of every level, not only the level-filtered subset — each line built from
the record's upper-cased, space-padded level name and its content
representation. -/
theorem c6_messages_structure (pr : PyVal → String) (desc : String)
    (level : Option Nat) (records : List Record) :
    (comparerMessages pr desc level records).length = 1 + records.length ∧
    (comparerMessages pr desc level records).drop 1
      = records.map (comparerLine pr) := by
  constructor
  · simp [comparerMessages, Nat.add_comm]
  · rfl

/-- Counterexample for C7: with both adapters active (stdlib = 0,
structlog = 1) and emissions e1 (stdlib), e2 (structlog), e3 (stdlib),
the queried view is `[e1, e3, e2]` — grouped by adapter — not the true
emission order `[e1, e2, e3]`. -/
theorem c7_interleaving_counterexample :
    getRecords [0, 1]
        [(0, ⟨"DEBUG", 10, PyVal.str "e1", []⟩),
         (1, ⟨"debug", 10, PyVal.str "e2", []⟩),
         (0, ⟨"DEBUG", 10, PyVal.str "e3", []⟩)]
      ≠ [⟨"DEBUG", 10, PyVal.str "e1", []⟩,
         ⟨"debug", 10, PyVal.str "e2", []⟩,
         ⟨"DEBUG", 10, PyVal.str "e3", []⟩] ∧
    getRecords [0, 1]
        [(0, ⟨"DEBUG", 10, PyVal.str "e1", []⟩),
         (1, ⟨"debug", 10, PyVal.str "e2", []⟩),
         (0, ⟨"DEBUG", 10, PyVal.str "e3", []⟩)]
      = [⟨"DEBUG", 10, PyVal.str "e1", []⟩,
         ⟨"DEBUG", 10, PyVal.str "e3", []⟩,
         ⟨"debug", 10, PyVal.str "e2", []⟩] :=
  ⟨by decide, by decide⟩

/-- C7 (amended): the merged view concatenates the adapters' buffers in
handler order (all stdlib-captured records first, then all
structlog-captured ones), so cross-adapter emission order is not
preserved; when a single adapter captures everything, the queried order
equals emission order, regardless of level. -/
theorem c7_merged_order (trace : List Emission) :
    getRecords [0, 1] trace = handlerBuffer 0 trace ++ handlerBuffer 1 trace ∧
    ((∀ e ∈ trace, e.1 = 0) →
      getRecords [0, 1] trace = trace.map (fun e => e.2)) := by
  constructor
  · simp [getRecords]
  · intro h
    have h0 : trace.filter (fun e => e.1 == 0) = trace :=
      List.filter_eq_self.mpr (fun e he => by simp [h e he])
    have h1 : trace.filter (fun e => e.1 == 1) = [] :=
      List.filter_eq_nil_iff.mpr (fun e he => by simp [h e he])
    simp [getRecords, handlerBuffer, h0, h1]

/-- Witness for C7 (amended): a two-emission trace captured entirely by
the stdlib adapter is queried in emission order. -/
theorem c7_merged_order_witness :
    (∀ e ∈ ([(0, ⟨"DEBUG", 10, PyVal.str "x", []⟩),
             (0, ⟨"INFO", 20, PyVal.str "y", []⟩)] : List Emission), e.1 = 0) ∧
    getRecords [0, 1]
        [(0, ⟨"DEBUG", 10, PyVal.str "x", []⟩),
         (0, ⟨"INFO", 20, PyVal.str "y", []⟩)]
      = ([(0, ⟨"DEBUG", 10, PyVal.str "x", []⟩),
          (0, ⟨"INFO", 20, PyVal.str "y", []⟩)] : List Emission).map (fun e => e.2) :=
  ⟨by decide,
    (c7_merged_order
        [(0, ⟨"DEBUG", 10, PyVal.str "x", []⟩),
         (0, ⟨"INFO", 20, PyVal.str "y", []⟩)]).2 (by decide)⟩

/-- Placeholder record for out-of-range `getD` indexing (never consulted
under the stated bounds). -/
def defaultRecord : Record := ⟨"", 0, PyVal.pnone, []⟩

/-- Placeholder item for out-of-range `getD` indexing (never consulted
under the stated bounds). -/
def defaultItem : Item := Item.val PyVal.pnone

theorem windowOk_iff (rs : String → String → Bool) (sect : List Record) :
    ∀ ms : List Matcher,
      (windowOk rs sect ms = true ↔
        ∀ i, i < min sect.length ms.length →
          (ms.getD i Matcher.nothing).searchRes rs (sect.getD i defaultRecord)
            = true) := by
  induction sect with
  | nil => intro ms; simp [windowOk]
  | cons r rest ih =>
    intro ms
    cases ms with
    | nil => simp [windowOk]
    | cons m mrest =>
      simp only [windowOk, List.zip_cons_cons, List.all_cons, Bool.and_eq_true,
        List.length_cons, Nat.succ_min_succ]
      constructor
      · rintro ⟨h0, hrest⟩ i hi
        cases i with
        | zero => simpa using h0
        | succ n =>
          have hn := (ih mrest).mp hrest n (by omega)
          simpa using hn
      · intro h
        refine ⟨?_, (ih mrest).mpr ?_⟩
        · have h0 := h 0 (by omega)
          simpa using h0
        · intro n hn
          have hs := h (n + 1) (by omega)
          simpa using hs

theorem getD_take_drop (l : List Record) (s k i : Nat) (hik : i < k) :
    ((l.drop s).take k).getD i defaultRecord = l.getD (s + i) defaultRecord := by
  rw [List.getD_eq_getElem?_getD, List.getD_eq_getElem?_getD,
    List.getElem?_take_of_lt hik, List.getElem?_drop]

theorem getD_map_getMatcher (l : List Item) (i : Nat) (h : i < l.length) :
    (l.map getMatcher).getD i Matcher.nothing
      = getMatcher (l.getD i defaultItem) := by
  rw [List.getD_eq_getElem?_getD, List.getD_eq_getElem?_getD,
    List.getElem?_map, List.getElem?_eq_getElem h]
  simp

/-- C2: the sequence check succeeds iff some start index `s` admits a full
window — a point-wise match of the `k` coerced sub-matchers against the
records at positions `s .. s+k-1` — and in particular it does not commit
to a failing first candidate start: `Sequence('a1','a2','a1')` over
`[a1, bar, a1, a2, a1]` succeeds (with the window at the second `a1`)
even though the window at the first `a1` fails. -/
theorem c2_verify_sequence_spec :
    (∀ (rs : String → String → Bool) (toks : List Item) (recs : List Record),
      verifySequence rs toks recs = true ↔
        ∃ s, s + toks.length ≤ recs.length ∧
          ∀ i, i < toks.length →
            (getMatcher (toks.getD i defaultItem)).searchRes rs
              (recs.getD (s + i) defaultRecord) = true)
    ∧ windowOk regexLit
        (([⟨"DEBUG", 10, PyVal.str "a1", []⟩,
           ⟨"DEBUG", 10, PyVal.str "bar", []⟩,
           ⟨"DEBUG", 10, PyVal.str "a1", []⟩,
           ⟨"DEBUG", 10, PyVal.str "a2", []⟩,
           ⟨"DEBUG", 10, PyVal.str "a1", []⟩] : List Record).take 3)
        ([Item.val (PyVal.str "a1"), Item.val (PyVal.str "a2"),
          Item.val (PyVal.str "a1")].map getMatcher) = false
    ∧ verifySequence regexLit
        [Item.val (PyVal.str "a1"), Item.val (PyVal.str "a2"),
         Item.val (PyVal.str "a1")]
        [⟨"DEBUG", 10, PyVal.str "a1", []⟩,
         ⟨"DEBUG", 10, PyVal.str "bar", []⟩,
         ⟨"DEBUG", 10, PyVal.str "a1", []⟩,
         ⟨"DEBUG", 10, PyVal.str "a2", []⟩,
         ⟨"DEBUG", 10, PyVal.str "a1", []⟩] = true := by
  refine ⟨?_, by decide, by decide⟩
  intro rs toks recs
  unfold verifySequence
  rw [List.any_eq_true]
  constructor
  · rintro ⟨s, hsmem, hwin⟩
    rw [List.mem_range] at hsmem
    rw [List.length_map] at hsmem
    have hbound : s + toks.length ≤ recs.length := by omega
    refine ⟨s, hbound, fun i hi => ?_⟩
    have hlen : ((recs.drop s).take (toks.map getMatcher).length).length
        = toks.length := by
      simp [List.length_map]
      omega
    have hw := (windowOk_iff rs _ (toks.map getMatcher)).mp hwin i
      (by rw [hlen, List.length_map]; omega)
    rw [getD_take_drop recs s _ i (by rw [List.length_map]; exact hi),
      getD_map_getMatcher toks i hi] at hw
    exact hw
  · rintro ⟨s, hbound, hall⟩
    refine ⟨s, ?_, ?_⟩
    · rw [List.mem_range, List.length_map]
      omega
    · rw [windowOk_iff]
      intro i hi
      have hik : i < toks.length := by
        simp [List.length_map] at hi
        omega
      rw [getD_take_drop recs s _ i (by rw [List.length_map]; exact hik),
        getD_map_getMatcher toks i hik]
      exact hall i hik

end Logassert
